import Mathlib

/-!
Shallow embedding of `src/main.rs` of planetscale-rs, an HTTP-to-SQL
gateway.  The axum handlers `health`, `execute` and `session` are
modelled as pure functions: the effectful inputs (the `Uuid::new_v4`
RNG draw, the result of `Pool::get_conn`, the connection's `query`
method) are explicit parameters, a Rust panic (`unwrap` on a missing
value) is modelled as `none`, and the queries dispatched to the
relational engine are returned as an explicit trace list.
-/

namespace PS

/-- UUIDs are modelled as 128-bit naturals; the nil UUID is `0`. -/
abbrev Uuid := Nat

/-- The nil (all-zero) UUID. -/
def UUID_NIL : Uuid := 0

/-- `Uuid::new_v4()`: random bits with the version nibble forced to `4`
(here placed at bits 48–51), so the result is never the nil UUID.
`rand` stands for the random draw. -/
def uuidV4 (rand : Nat) : Uuid :=
  rand % 2 ^ 48 + 4 * 2 ^ 48 + rand / 2 ^ 48 % 2 ^ 76 * 2 ^ 52

/-- `Config` from main.rs (lines 23–29). -/
structure Config where
  connection_url : String
  username : String
  password : String
  port : Nat
deriving DecidableEq

/-- `Field` from main.rs (lines 31–45). -/
structure Field where
  name : String
  _type : String
  table : Option String
  database : Option String
  orgTable : Option String
  orgName : Option String
  columnLength : Option Nat
  charset : Option Nat
  flags : Option Nat
  columnType : Option String
deriving DecidableEq

/-- `Row` from main.rs (lines 46–50). -/
structure Row where
  lengths : List String
  values : Option String
deriving DecidableEq

/-- `ResultRes` from main.rs (lines 52–58). -/
structure ResultRes where
  rowsAffected : Option String
  insertId : Option String
  fields : Option (List Field)
  rows : Option (List Row)
deriving DecidableEq

/-- `Error` from main.rs (lines 59–63). -/
structure Error where
  message : String
  code : Nat
deriving DecidableEq

/-- `ResponseBody` from main.rs (lines 64–70). `session` is a plain
(non-optional) field: every envelope carries one. -/
structure ResponseBody where
  session : Uuid
  result : Option ResultRes
  error : Option Error
  timing : Option Nat
deriving DecidableEq

/-- `ResponseBody::from_error` (main.rs lines 72–80). -/
def ResponseBody.from_error (error : Error) (session : Uuid) : ResponseBody :=
  { error := some error, result := none, session := session, timing := none }

/-- `ResponseBody::from_session` (main.rs lines 82–89). -/
def ResponseBody.from_session (session : Uuid) : ResponseBody :=
  { session := session, error := none, result := none, timing := none }

/-- `RequestBody` from main.rs (lines 98–102). -/
structure RequestBody where
  query : Option String
  session : Option Uuid
deriving DecidableEq

/-- The inherent `RequestBody::default` method (main.rs lines 104–111),
used by `health` when no body was supplied: query defaults to `""` and
session to a fresh v4 UUID. -/
def RequestBody.default (rand : Nat) : RequestBody :=
  { query := some "", session := some (uuidV4 rand) }

/-- A pooled connection, seen through the only method the handler calls:
`conn.query(q)` returns `Ok` with the row strings or `Err` with the
engine's error message. -/
abbrev Conn := String → Except String (List String)

/-- The `health` handler (main.rs lines 113–128).  A missing body is
replaced by `RequestBody.default`; then `body.session.unwrap()` is
called, which panics (`none`) when a body was supplied without a
session field. -/
def health (rand : Nat) (maybe_body : Option RequestBody) : Option ResponseBody :=
  let body := match maybe_body with
    | some x => x
    | none => RequestBody.default rand
  match body.session with
  | some s => some { session := s, error := none, result := none, timing := none }
  | none => none

/-- The `execute` handler (main.rs lines 129–175).  Parameters:
`state` is the shared config, `(username, password)` the basic-auth
pair (`password` optional), `getConn` the outcome of `pool.get_conn()`,
`body` the parsed JSON body, `rand` the RNG draw for a fresh session id.
Returns the envelope (`none` when the handler panics — the source
unwraps the `get_conn` result) together with the list of query strings
dispatched to the engine. -/
def execute (state : Config) (username : String) (password : Option String)
    (getConn : Except String Conn) (body : RequestBody) (rand : Nat) :
    Option ResponseBody × List String :=
  let session := match body.session with
    | some s => s
    | none => uuidV4 rand
  let password := match password with
    | some p => p
    | none => ""
  if username ≠ state.username ∨ password ≠ state.password then
    (some (ResponseBody.from_error { message := "Invalid credentials", code := 401 } session), [])
  else
    match getConn with
    | Except.error _ => (none, [])
    | Except.ok conn =>
      let query := match body.query with
        | some q => q
        | none => ""
      -- the source binds `res` to the (error-swallowing) query outcome and
      -- only prints it; the response below does not depend on it
      let res : List String := match conn query with
        | Except.ok e => e
        | Except.error _ => []
      (some { session := session,
              result := some { fields := none, insertId := none,
                               rows := none, rowsAffected := none },
              timing := none,
              error := none },
       [query])

/-- The `session` handler, i.e. CreateSession (main.rs lines 177–199). -/
def session (state : Config) (username : String) (password : Option String)
    (rand : Nat) : ResponseBody :=
  let sess := uuidV4 rand
  let password := match password with
    | some p => p
    | none => ""
  if username ≠ state.username ∨ password ≠ state.password then
    ResponseBody.from_error { message := "Invalid credentials", code := 401 } sess
  else
    ResponseBody.from_session sess

/-- A sample configuration used for concrete evaluations. -/
def cfg0 : Config :=
  { connection_url := "mysql://u", username := "admin", password := "secret", port := 3000 }

theorem uuidV4_pos (rand : Nat) : 0 < uuidV4 rand :=
  Nat.add_pos_left (Nat.add_pos_right _ (by norm_num)) _

theorem uuidV4_ne_nil (rand : Nat) : uuidV4 rand ≠ UUID_NIL :=
  Nat.pos_iff_ne_zero.mp (uuidV4_pos rand)

/-- Whenever `execute` produces an envelope (it may instead panic), the
envelope's session id is the supplied one, or a fresh v4 UUID when the
body carried none.  Holds on the 401 path and on the success path. -/
theorem execute_fst_session (cfg : Config) (u : String) (p : Option String)
    (gc : Except String Conn) (body : RequestBody) (rand : Nat) (e : ResponseBody)
    (h : (execute cfg u p gc body rand).fst = some e) :
    e.session = body.session.getD (uuidV4 rand) := by
  rcases body with ⟨q, s⟩
  rcases gc with m | conn <;> cases s <;>
    simp only [execute, Option.getD] at h ⊢ <;>
    split at h <;>
    simp_all [ResponseBody.from_error] <;>
    subst h <;>
    rfl

/-- C1: the spec requires an Error envelope (5xx, engine message) when the
query fails at the engine; the code instead swallows the engine error and
returns a success-shaped envelope with `error` null and an empty
`ResultRes`.  Evaluation of `execute` at the failing input. -/
theorem C1_engine_failure_swallowed :
    execute cfg0 "admin" (some "secret")
      (Except.ok fun _ => Except.error "You have an error in your SQL syntax")
      { query := some "SELEC 1 FROM", session := some 7 } 0
    = (some { session := 7,
              result := some { rowsAffected := none, insertId := none,
                               fields := none, rows := none },
              error := none, timing := none },
       ["SELEC 1 FROM"]) := rfl

/-- C2: for a write query the code leaves `rowsAffected` and `insertId`
absent (it never marshals the engine's counts), contrary to the claimed
decimal-string encoding.  Evaluation of `execute` at a write query. -/
theorem C2_write_result_not_marshalled :
    (execute cfg0 "admin" (some "secret") (Except.ok fun _ => Except.ok [])
      { query := some "INSERT INTO t VALUES (1)", session := some 7 } 0).fst
    = some { session := 7,
             result := some { rowsAffected := none, insertId := none,
                              fields := none, rows := none },
             error := none, timing := none } := rfl

/-- C3: for a read query returning one column and one row the code leaves
`fields` and `rows` absent (no marshalling), contrary to the claimed
field/row lists with matching arity.  Evaluation of `execute` at a read
query whose engine reply carries one row. -/
theorem C3_read_result_not_marshalled :
    (execute cfg0 "admin" (some "secret") (Except.ok fun _ => Except.ok ["1"])
      { query := some "SELECT 1", session := some 7 } 0).fst
    = some { session := 7,
             result := some { rowsAffected := none, insertId := none,
                              fields := none, rows := none },
             error := none, timing := none } := rfl

/-- C4 counterexample: with invalid credentials and a client-supplied nil
session id, `execute` returns the 401 envelope whose session id is the
nil UUID — so the envelope's session id is not always well-formed. -/
theorem C4_counterexample :
    (execute cfg0 "admin" (some "wrong") (Except.ok fun _ => Except.ok [])
        { query := some "SELECT 1", session := some UUID_NIL } 5).fst
      = some (ResponseBody.from_error { message := "Invalid credentials", code := 401 } UUID_NIL)
    ∧ UUID_NIL = 0 := ⟨rfl, rfl⟩

/-- C4 (amended): on invalid credentials (missing password read as ""),
`execute` and CreateSession return envelopes with result null and error
`{message := "Invalid credentials", code := 401}`; the session id equals
the supplied one when present, and is a freshly generated non-nil id
otherwise (CreateSession's is always fresh and non-nil). -/
theorem C4_invalid_credentials_envelope (cfg : Config) (u : String) (p : Option String)
    (gc : Except String Conn) (body : RequestBody) (rand : Nat)
    (h : u ≠ cfg.username ∨ p.getD "" ≠ cfg.password) :
    ((execute cfg u p gc body rand).fst
      = some (ResponseBody.from_error { message := "Invalid credentials", code := 401 }
          (body.session.getD (uuidV4 rand))))
    ∧ (body.session = none → body.session.getD (uuidV4 rand) ≠ UUID_NIL)
    ∧ session cfg u p rand
      = ResponseBody.from_error { message := "Invalid credentials", code := 401 } (uuidV4 rand)
    ∧ uuidV4 rand ≠ UUID_NIL := by
  refine ⟨?_, ?_, ?_, uuidV4_ne_nil rand⟩
  · rcases body with ⟨q, s⟩
    rcases p with _ | pw
    · simp only [Option.getD_none] at h
      cases s <;> simp [execute, h]
    · simp only [Option.getD_some] at h
      cases s <;> simp [execute, h]
  · intro hn
    rw [hn]
    exact uuidV4_ne_nil rand
  · rcases p with _ | pw
    · simp only [Option.getD_none] at h
      simp [session, h]
    · simp only [Option.getD_some] at h
      simp [session, h]

theorem C4_witness :
    ("admin" ≠ cfg0.username ∨ (some "wrong" : Option String).getD "" ≠ cfg0.password)
    ∧ (((execute cfg0 "admin" (some "wrong") (Except.ok fun _ => Except.ok [])
          { query := some "SELECT 1", session := none } 3).fst
        = some (ResponseBody.from_error { message := "Invalid credentials", code := 401 }
            ((none : Option Uuid).getD (uuidV4 3))))
       ∧ ((none : Option Uuid) = none → (none : Option Uuid).getD (uuidV4 3) ≠ UUID_NIL)
       ∧ session cfg0 "admin" (some "wrong") 3
          = ResponseBody.from_error { message := "Invalid credentials", code := 401 } (uuidV4 3)
       ∧ uuidV4 3 ≠ UUID_NIL) := by
  refine ⟨Or.inr (by decide), ?_⟩
  exact C4_invalid_credentials_envelope cfg0 "admin" (some "wrong")
    (Except.ok fun _ => Except.ok []) { query := some "SELECT 1", session := none } 3
    (Or.inr (by decide))

/-- C5: whenever `execute` produces an envelope — on the success path and
on the 401 path alike — its session id equals the supplied one, and when
the body carried none it is the freshly generated, non-nil v4 UUID. -/
theorem C5_session_roundtrip (cfg : Config) (u : String) (p : Option String)
    (gc : Except String Conn) (body : RequestBody) (rand : Nat) (e : ResponseBody)
    (h : (execute cfg u p gc body rand).fst = some e) :
    (∀ s, body.session = some s → e.session = s)
    ∧ (body.session = none → e.session = uuidV4 rand ∧ e.session ≠ UUID_NIL) := by
  have hs := execute_fst_session cfg u p gc body rand e h
  constructor
  · intro s hsome
    rw [hs, hsome]
    rfl
  · intro hnone
    rw [hs, hnone]
    exact ⟨rfl, uuidV4_ne_nil rand⟩

theorem C5_witness :
    ((execute cfg0 "admin" (some "secret") (Except.ok fun _ => Except.ok [])
        { query := some "SELECT 1", session := some 42 } 0).fst
      = some { session := 42,
               result := some { rowsAffected := none, insertId := none,
                                fields := none, rows := none },
               error := none, timing := none })
    ∧ ((∀ s, (some 42 : Option Uuid) = some s → (42 : Uuid) = s)
       ∧ ((some 42 : Option Uuid) = none → (42 : Uuid) = uuidV4 0 ∧ (42 : Uuid) ≠ UUID_NIL)) := by
  refine ⟨rfl, ?_⟩
  exact C5_session_roundtrip cfg0 "admin" (some "secret") (Except.ok fun _ => Except.ok [])
    { query := some "SELECT 1", session := some 42 } 0
    { session := 42,
      result := some { rowsAffected := none, insertId := none, fields := none, rows := none },
      error := none, timing := none }
    rfl

/-- C6: the spec requires a 5xx Error envelope when acquiring a pooled
connection fails; the code instead calls `.unwrap()` on the failed
acquire and panics, producing no envelope at all (modelled as `none`). -/
theorem C6_pool_failure_panics :
    execute cfg0 "admin" (some "secret") (Except.error "pool exhausted")
      { query := some "SELECT 1", session := some 7 } 0
    = (none, []) := rfl

/-- C7: the spec requires `/health` to apply defaults and answer
`{session, result:null, error:null, timing:null}` for any body; the code
panics (`body.session.unwrap()`) when a body is supplied without a
session field.  The default is only applied when the body is absent
entirely, in which case the handler does answer as specified. -/
theorem C7_health_panics_on_missing_session :
    health 0 (some { query := some "SELECT 1", session := none }) = none
    ∧ health 7 none
      = some { session := uuidV4 7, result := none, error := none, timing := none } :=
  ⟨rfl, rfl⟩

/-- C8: the spec requires an Execute body without a query field to be
rejected before reaching the Query Executor; the code instead replaces
the missing query by `""` (`unwrap_or`) and dispatches it to the engine
— the trace records the empty query — returning a success envelope. -/
theorem C8_missing_query_executed_as_empty :
    execute cfg0 "admin" (some "secret") (Except.ok fun _ => Except.ok [])
      { query := none, session := some 7 } 0
    = (some { session := 7,
              result := some { rowsAffected := none, insertId := none,
                               fields := none, rows := none },
              error := none, timing := none },
       [""]) := rfl

/-- C9: every envelope produced by any handler carries a session id, on
success and failure paths alike: `execute`'s envelope carries the
supplied-or-fresh id, `health`'s carries the body's id, and
CreateSession's carries a fresh id. -/
theorem C9_every_response_carries_session (cfg : Config) (u : String) (p : Option String)
    (gc : Except String Conn) (body : RequestBody) (mb : Option RequestBody) (rand : Nat) :
    (∀ e, (execute cfg u p gc body rand).fst = some e
        → e.session = body.session.getD (uuidV4 rand))
    ∧ (∀ e, health rand mb = some e
        → (mb.getD (RequestBody.default rand)).session = some e.session)
    ∧ (session cfg u p rand).session = uuidV4 rand := by
  refine ⟨fun e h => execute_fst_session cfg u p gc body rand e h, ?_, ?_⟩
  · intro e h
    rcases mb with _ | b
    · have h2 := Option.some.inj h
      subst h2
      rfl
    · rcases b with ⟨q, s⟩
      cases s
      · simp [health] at h
      · have h2 := Option.some.inj h
        subst h2
        rfl
  · simp only [session]
    split <;> rfl

theorem C9_witness :
    ResponseBody.session
        { session := 7,
          result := some { rowsAffected := none, insertId := none,
                           fields := none, rows := none },
          error := none, timing := none }
      = (some 7 : Option Uuid).getD (uuidV4 0)
    ∧ (session cfg0 "x" none 3).session = uuidV4 3 := by
  constructor
  · exact (C9_every_response_carries_session cfg0 "admin" (some "secret")
      (Except.ok fun _ => Except.ok []) { query := some "q", session := some 7 } none 0).1
      { session := 7,
        result := some { rowsAffected := none, insertId := none,
                         fields := none, rows := none },
        error := none, timing := none } rfl
  · exact (C9_every_response_carries_session cfg0 "x" none
      (Except.ok fun _ => Except.ok []) { query := some "q", session := some 7 } none 3).2.2

/-- C10: with valid credentials and a successfully acquired connection,
`execute` returns an envelope with `error` null and a `ResultRes` whose
four fields are all absent — the same response for every query text and
every engine reply (success or failure alike); the query is dispatched
to the engine exactly once. -/
theorem C10_success_response_constant (cfg : Config) (u : String) (p : Option String)
    (conn : Conn) (body : RequestBody) (rand : Nat)
    (hu : u = cfg.username) (hp : p.getD "" = cfg.password) :
    execute cfg u p (Except.ok conn) body rand
      = (some { session := body.session.getD (uuidV4 rand),
                result := some { rowsAffected := none, insertId := none,
                                 fields := none, rows := none },
                error := none, timing := none },
         [body.query.getD ""]) := by
  subst hu
  rcases body with ⟨q, s⟩
  rcases p with _ | pw
  · simp only [Option.getD_none] at hp
    have hc : ¬(cfg.username ≠ cfg.username ∨ "" ≠ cfg.password) := by simp [hp.symm]
    cases s <;> cases q <;> simp [execute, hc, hp]
  · simp only [Option.getD_some] at hp
    have hc : ¬(cfg.username ≠ cfg.username ∨ pw ≠ cfg.password) := by simp [hp]
    cases s <;> cases q <;> simp [execute, hc, hp]

theorem C10_witness :
    "admin" = cfg0.username
    ∧ (some "secret" : Option String).getD "" = cfg0.password
    ∧ execute cfg0 "admin" (some "secret")
        (Except.ok fun _ => Except.error "Table t does not exist")
        { query := some "DROP TABLE t", session := some 9 } 0
      = (some { session := (some 9 : Option Uuid).getD (uuidV4 0),
                result := some { rowsAffected := none, insertId := none,
                                 fields := none, rows := none },
                error := none, timing := none },
         [(some "DROP TABLE t" : Option String).getD ""]) := by
  refine ⟨rfl, rfl, ?_⟩
  exact C10_success_response_constant cfg0 "admin" (some "secret")
    (fun _ => Except.error "Table t does not exist")
    { query := some "DROP TABLE t", session := some 9 } 0 rfl rfl

end PS
